import Mathlib

/-!
Verification development for the Real-Estate portfolio chat agent
(`src/portfolio_chat_agent.py`, class `PortfolioChatAgent`).

The Python code is shallowly embedded over `List Char` text.  Python string
operations used by the agent (`in`, `.lower()`, `.strip()`, `.replace()`,
`.split()`, `re.sub`, `re.search` with word boundaries, `re.findall(r'\d+')`)
are modelled as executable Lean functions on character lists.  All the
inputs exercised here are ASCII, so the ASCII-level models of `.lower()`,
`.strip()` and the regex character classes coincide with Python's behaviour.

External collaborators (the database executor and the generative text
capability) are oracles supplied per turn through an `Env` record, exactly
following the interface in the specification: `connect() -> bool`,
`execute(sql) -> tabular_result | null-on-failure`, `close()`, and
`complete(...) -> text` (a `none` oracle answer models the client raising,
which the agent catches).  Each turn additionally records the trace of
database-interface calls it performs, so that resource and frame properties
can be stated.
-/

/-- Text is modelled as a list of characters. -/
abbrev Str := List Char

/-- Python `pat in hay` needs a prefix test: `leadsWith pat s` holds when
`pat` occurs at the very start of `s`. -/
def leadsWith : Str → Str → Bool
  | [], _ => true
  | _ :: _, [] => false
  | p :: ps, c :: cs => p == c && leadsWith ps cs

/-- Python substring containment `pat in hay` (an empty pattern is contained
in every string). -/
def containsSub (hay pat : Str) : Bool :=
  match hay with
  | [] => pat.isEmpty
  | c :: t => leadsWith pat (c :: t) || containsSub t pat

/-- Python `str.lower()` restricted to ASCII (all texts handled here are
ASCII). -/
def pyLower (s : Str) : Str := s.map Char.toLower

/-- Python `str.upper()` restricted to ASCII. -/
def pyUpper (s : Str) : Str := s.map Char.toUpper

/-- The whitespace class of Python's `str.strip()` and of the regex `\s`,
restricted to ASCII. -/
def isPyWs (c : Char) : Bool :=
  c == ' ' || c == '\t' || c == '\n' || c == '\r' || c == '\x0B' || c == '\x0C'

/-- Remove the trailing run of characters satisfying `p`. -/
def stripEndBy (p : Char → Bool) : Str → Str
  | [] => []
  | c :: t =>
    let r := stripEndBy p t
    if r.isEmpty && p c then [] else c :: r

/-- Python `str.strip(chars)`: remove leading and trailing characters
satisfying `p`. -/
def stripBy (p : Char → Bool) (s : Str) : Str := stripEndBy p (s.dropWhile p)

/-- Python `str.strip()` (whitespace at both ends). -/
def pyStrip (s : Str) : Str := stripBy isPyWs s

/-- Token counter for Python `len(s.split())`: number of maximal
whitespace-free runs.  The `inWord` flag says whether the previous character
belonged to a word. -/
def pyWordCountAux : Str → Bool → Nat
  | [], _ => 0
  | c :: t, inWord =>
    if isPyWs c then pyWordCountAux t false
    else (if inWord then 0 else 1) + pyWordCountAux t true

/-- Python `len(s.split())`. -/
def pyWordCount (s : Str) : Nat := pyWordCountAux s false

/-- Python truthiness of an optional string (`if not x:`): `None` and the
empty string are falsy. -/
def pyFalsy : Option Str → Bool
  | none => true
  | some s => s.isEmpty

/-- Decimal rendering of a natural number, for `f"{limit}"` style
interpolation. -/
def natStr (n : Nat) : Str := Nat.toDigits 10 n

/-- Numeric value of a run of decimal digits (Python `int(...)` on a digit
string). -/
def digitsToNat (ds : Str) : Nat := ds.foldl (fun a c => a * 10 + (c.toNat - 48)) 0

/-- First match of `re.findall(r'\d+', s)` converted with `int`, if any. -/
def firstNumber : Str → Option Nat
  | [] => none
  | c :: t =>
    if c.isDigit then some (digitsToNat (List.takeWhile Char.isDigit (c :: t)))
    else firstNumber t

/-- One pass of Python `str.replace(pat, rep)`: replace all non-overlapping
occurrences left to right.  The fuel argument dominates the length of the
remaining text; every pattern used by the agent is non-empty, so each
recursive step consumes at least one character. -/
def pythonReplaceAux : Nat → Str → Str → Str → Str
  | 0, _, _, s => s
  | _ + 1, _, _, [] => []
  | fuel + 1, pat, rep, c :: t =>
    if leadsWith pat (c :: t) && !pat.isEmpty then
      rep ++ pythonReplaceAux fuel pat rep ((c :: t).drop pat.length)
    else
      c :: pythonReplaceAux fuel pat rep t

/-- Python `s.replace(pat, rep)` for the non-empty patterns used by the
agent. -/
def pythonReplace (pat rep s : Str) : Str := pythonReplaceAux s.length pat rep s

/-- The word-character class `\w` of the regex word boundary `\b`,
restricted to ASCII. -/
def isWordChar (c : Char) : Bool := c.isAlphanum || c == '_'

/-- A position is a word boundary against an adjacent character `c` (`none`
is the edge of the string).  All casual patterns begin and end with word
characters, so `\b` next to them requires the adjacent character to not be a
word character. -/
def wordBoundOk : Option Char → Bool
  | none => true
  | some c => !isWordChar c

/-- Does the (non-empty, word-character-delimited) pattern match at the head
of `s`, given the character `prev` just before this position? -/
def wbMatchAt (pat s : Str) (prev : Option Char) : Bool :=
  leadsWith pat s && wordBoundOk prev && wordBoundOk (s.drop pat.length).head?

/-- Scan of `re.search(r'\b…\b', s)` for a literal pattern delimited by word
characters: try a boundary-respecting match at every position. -/
def wbSearchAux (pat : Str) (prev : Option Char) : Str → Bool
  | [] => false
  | c :: t => wbMatchAt pat (c :: t) prev || wbSearchAux pat (some c) t

/-- `re.search(r'\b…\b', s) is not None` for the casual-greeting patterns. -/
def wbSearch (pat s : Str) : Bool := wbSearchAux pat none s

/-- Match of the regex `TOP\s+\d+\s*` (flags: IGNORECASE) at the head of
`s`, returning the length of the (greedy) match.  The classes `\s` and `\d`
are disjoint, so greedy scanning needs no backtracking. -/
def matchTopLen (s : Str) : Option Nat :=
  match s with
  | c1 :: c2 :: c3 :: r1 =>
    if c1.toLower == 't' && c2.toLower == 'o' && c3.toLower == 'p' then
      let ws1 := r1.takeWhile isPyWs
      if ws1.isEmpty then none
      else
        let r2 := r1.drop ws1.length
        let ds := r2.takeWhile Char.isDigit
        if ds.isEmpty then none
        else
          let r3 := r2.drop ds.length
          some (3 + ws1.length + ds.length + (r3.takeWhile isPyWs).length)
    else none
  | _ => none

/-- `re.sub(r'TOP\s+\d+\s*', '', s, flags=re.IGNORECASE)`: scan left to
right, delete each match, resume after it.  Every match has length at least
five, so fuel equal to the text length suffices. -/
def reSubTopAux : Nat → Str → Str
  | 0, s => s
  | _ + 1, [] => []
  | fuel + 1, c :: t =>
    match matchTopLen (c :: t) with
    | some n => reSubTopAux fuel ((c :: t).drop n)
    | none => c :: reSubTopAux fuel t

/-- Does the text contain a `TOP\s+\d+\s*` match at some position? -/
def hasTop : Str → Bool
  | [] => false
  | c :: t => (matchTopLen (c :: t)).isSome || hasTop t

/-! ## Data model -/

/-- Conversation roles. -/
inductive Role
  | user
  | assistant
deriving DecidableEq, BEq

/-- One entry of `conversation_memory`: `{"role": …, "content": …}`. -/
structure MemTurn where
  role : Role
  content : Str
deriving DecidableEq

/-- A tabular query result (`pandas.DataFrame`): column names and rows.
`len(df)` is the number of rows. -/
structure Df where
  cols : List Str
  rows : List (List Str)
deriving DecidableEq

/-- `pd.DataFrame()`. -/
def emptyDf : Df := ⟨[], []⟩

/-- The mutable session fields of `PortfolioChatAgent`:
`conversation_memory`, `last_query_result`, `last_sql_query`,
`last_question`. -/
structure AgentState where
  conversation_memory : List MemTurn
  last_query_result : Option Df
  last_sql_query : Option Str
  last_question : Option Str
deriving DecidableEq

/-- The state right after `__init__` (and after
`/api/conversation/reset`). -/
def initialState : AgentState := ⟨[], none, none, none⟩

/-- Per-turn oracle answers of the external collaborators: the database
executor (`connect`, one `execute`) and the generative text capability
(SQL generation, business insights, general answers).  A `none` text answer
models the client raising an exception, which the agent catches. -/
structure Env where
  connectOk : Bool
  execResult : Option Df
  llmSql : Option Str
  llmInsights : Option Str
  llmGeneral : Option Str
deriving DecidableEq

/-- Database-interface calls performed during one turn, in order. -/
inductive DbCall
  | connect (ok : Bool)
  | execute (sql : Str) (result : Option Df)
  | close
deriving DecidableEq

/-- The response dictionary returned by `chat` (the ResponseEnvelope).
Fields in order: `success`, `question`, `sql_query`, `data`, `insights`,
`row_count`, `error`, `conversation_type`; absent keys are `none`. -/
structure ChatResponse where
  success : Bool
  question : Option Str
  sql_query : Option Str
  data : Option Df
  insights : Option Str
  row_count : Option Nat
  error : Option Str
  conversation_type : Option Str
deriving DecidableEq

/-- Outcome of `_generate_intelligent_sql`: either the SQL of a local
template, or a delegation to the external generative capability (whose
answer, possibly `none` on exception, is the oracle's). -/
inductive SqlRes
  | template (sql : Str)
  | delegated (answer : Option Str)
deriving DecidableEq

/-- Result of one `chat` turn: the new session state, the response
envelope, the trace of database-interface calls, and (for database-query
turns) the resolver outcome. -/
structure TurnResult where
  state : AgentState
  resp : ChatResponse
  dbCalls : List DbCall
  resolution : Option SqlRes
deriving DecidableEq

/-- The four intents of the classifier, in the priority order of `chat`. -/
inductive Intent
  | followUp
  | casual
  | dbQuery
  | general
deriving DecidableEq

/-! ## Fixed tables from the source -/

/-- `self.spelling_corrections`, in dictionary insertion order. -/
def spelling_corrections : List (Str × Str) :=
  [ ("liost".data, "list".data), ("lsit".data, "list".data), ("lst".data, "list".data),
    ("porofolio".data, "portfolio".data), ("portoflio".data, "portfolio".data),
    ("portifolio".data, "portfolio".data),
    ("propertys".data, "properties".data), ("proprties".data, "properties".data),
    ("aseets".data, "assets".data), ("asets".data, "assets".data),
    ("reveune".data, "revenue".data), ("revenu".data, "revenue".data),
    ("expnese".data, "expense".data), ("expenes".data, "expenses".data),
    ("hopsitality".data, "hospitality".data), ("hopitality".data, "hospitality".data),
    ("multifamly".data, "multifamily".data), ("multifmaily".data, "multifamily".data),
    ("qaurter".data, "quarter".data), ("quater".data, "quarter".data),
    ("finacial".data, "financial".data), ("fianncial".data, "financial".data) ]

/-- `followup_keywords` of `_is_followup_request`. -/
def followup_keywords : List Str :=
  [ "show all".data, "all results".data, "show everything".data, "full table".data,
    "complete list".data, "expand".data, "show more".data, "show rest".data,
    "all rows".data, "entire list".data, "full results".data, "without limit".data,
    "show complete".data, "all data".data, "everything".data ]

/-- The casual-greeting patterns of `_is_casual_conversation` (each is
wrapped in `\b…\b` in the source). -/
def casual_patterns : List Str :=
  [ "hey".data, "hi".data, "hello".data, "good morning".data, "good afternoon".data,
    "thanks".data, "thank you".data, "bye".data, "goodbye".data ]

/-- The data-keyword guard inside `_is_casual_conversation`. -/
def casual_data_keywords : List Str :=
  [ "show".data, "list".data, "get".data, "find".data, "properties".data,
    "noi".data, "data".data, "assets".data ]

/-- `data_keywords` of `_needs_database_query` (the source lists
`performance` twice). -/
def db_keywords : List Str :=
  [ "show".data, "list".data, "get".data, "find".data, "what".data, "which".data,
    "how many".data, "how much".data, "total".data, "sum".data, "average".data,
    "properties".data, "assets".data, "funds".data, "investors".data, "revenue".data,
    "noi".data, "debt".data, "equity".data,
    "performance".data, "returns".data, "cities".data, "table".data, "column".data,
    "schema".data, "irr".data, "moic".data,
    "occupancy".data, "expenses".data, "cash flow".data, "sale".data,
    "acquisition".data, "lender".data, "borrower".data,
    "count".data, "calculate".data, "analyze".data, "compare".data, "filter".data,
    "report".data, "portfolio".data, "summary".data,
    "q1".data, "q2".data, "q3".data, "q4".data, "quarter".data, "year".data,
    "ytd".data, "monthly".data, "detail".data, "overview".data,
    "company".data, "our".data, "performance".data, "metrics".data, "kpi".data,
    "dashboard".data,
    "above".data, "previous".data, "again".data, "date".data, "format".data,
    "display".data, "results".data, "values".data ]

/-- The prior-result reference words checked first by
`_needs_database_query` when `last_sql_query` is set. -/
def context_ref_words : List Str :=
  [ "above".data, "previous".data, "again".data, "results".data, "date".data ]

/-- Modelled from the spec: `CASUAL_RESPONSES` lives in
`config/system_prompts.py`, which is not part of the sources; it is a fixed
mapping from greeting keys to canned reply texts.  Its contents only select
which canned text `_handle_casual_conversation` echoes, and none of the
verified properties depend on them, so the mapping is left empty here. -/
def casual_responses : List (Str × Str) := []

/-! ## Messages and SQL templates (verbatim from the source) -/

def dbConnFailMsg : Str := "Database connection failed".data

def sqlGenFailMsg : Str :=
  "Could not generate a valid SQL query for this question. Try being more specific.".data

def execFailMsg : Str := "Query execution failed. Please check the query syntax.".data

def expandedExecFailMsg : Str := "Expanded query execution failed".data

def noPrevQueryMsg : Str :=
  "No previous query to expand. Please ask a specific question first.".data

def noDataMsg : Str :=
  "No data found for your query. The database might not contain the specific information you\x27re looking for, or the filters might be too restrictive.".data

def noDataShortMsg : Str := "No data found for your query.".data

def noQueryNeededMsg : Str := "No database query needed".data

def defaultCasualMsg : Str :=
  "Hello! I\x27m your Real Estate AI assistant. I can help you analyze your portfolio of 12 properties across different sectors. What would you like to know?".data

/-- `_handle_general_question` returns
`"Could not process general question: " + str(e)` on exception; the
exception text of the external client is abstracted away. -/
def genFailMsg : Str := "Could not process general question: ".data

/-- Template: top performing assets, `f"""SELECT TOP {limit} …"""`. -/
def topPerformingSql (limit : Nat) : Str :=
  "SELECT TOP ".data ++ natStr limit ++
  " \n                        a.AssetName,\n                        a.PropertyType,\n                        a.City,\n                        a.State,\n                        SUM(ao.NetOperatingIncome) as TotalNOI,\n                        SUM(ao.TotalRevenue) as TotalRevenue,\n                        AVG(ao.PhysicalOccupancy) as AvgOccupancy\n                    FROM FactAssetOperations ao\n                    JOIN DimAsset a ON ao.AssetID = a.AssetID\n                    GROUP BY a.AssetName, a.PropertyType, a.City, a.State\n                    ORDER BY TotalNOI DESC".data

/-- Template: total equity per fund. -/
def fundEquitySql : Str :=
  "SELECT \n                        f.FundName,\n                        SUM(fi.InvestmentAmount) as TotalEquity\n                    FROM FactInvestment fi\n                    JOIN DimFund f ON fi.FundID = f.FundID\n                    GROUP BY f.FundName\n                    ORDER BY TotalEquity DESC".data

/-- Template: all properties. -/
def allPropertiesSql : Str :=
  "SELECT \n                        AssetName,\n                        PropertyType,\n                        City,\n                        State,\n                        AssetStatus\n                    FROM DimAsset \n                    ORDER BY AssetName".data

/-- Template: cities. -/
def citiesSql : Str :=
  "SELECT DISTINCT \n                        City,\n                        State,\n                        COUNT(*) as PropertyCount\n                    FROM DimAsset \n                    WHERE City IS NOT NULL\n                    GROUP BY City, State \n                    ORDER BY PropertyCount DESC".data

/-- Template: total outstanding debt. -/
def totalDebtSql : Str :=
  "SELECT \n                        SUM(CurrentBalance) as TotalDebt,\n                        COUNT(*) as NumberOfLoans,\n                        AVG(InterestRate) as AvgInterestRate\n                    FROM FactDebtIssued \n                    WHERE DebtStatus = \x27Current\x27".data

/-- Template: multifamily properties. -/
def multifamilySql : Str :=
  "SELECT \n                        AssetID,\n                        AssetName,\n                        PropertyType,\n                        City,\n                        State,\n                        NumberOfUnits,\n                        TotalSquareFootage,\n                        AssetStatus\n                    FROM DimAsset \n                    WHERE PropertyType = \x27Multifamily\x27 \n                    ORDER BY AssetName".data

/-- Template: hospitality properties. -/
def hospitalitySql : Str :=
  "SELECT \n                        AssetID,\n                        AssetName,\n                        PropertyType,\n                        PropertySubType,\n                        City,\n                        State,\n                        NumberOfUnits,\n                        AssetStatus\n                    FROM DimAsset \n                    WHERE PropertyType = \x27Hospitality\x27 \n                    ORDER BY AssetName".data

/-- Template: property types. -/
def propertyTypesSql : Str :=
  "SELECT DISTINCT \n                        PropertyType,\n                        COUNT(*) as Count\n                    FROM DimAsset\n                    GROUP BY PropertyType\n                    ORDER BY Count DESC".data

/-- Template: high NOI properties. -/
def highNoiSql : Str :=
  "SELECT TOP 10\n                        a.AssetName,\n                        a.PropertyType,\n                        ao.NetOperatingIncome as NOI,\n                        ao.ReportingDateKey\n                    FROM FactAssetOperations ao\n                    JOIN DimAsset a ON ao.AssetID = a.AssetID\n                    WHERE ao.NetOperatingIncome IS NOT NULL\n                    ORDER BY ao.NetOperatingIncome DESC".data

/-- Template: properties by acquisition price. -/
def acquisitionPriceSql : Str :=
  "SELECT \n                        AssetName,\n                        PropertyType,\n                        City,\n                        State,\n                        AcquisitionPrice,\n                        AcquisitionDate\n                    FROM DimAsset\n                    WHERE AcquisitionPrice IS NOT NULL\n                    ORDER BY AcquisitionPrice DESC".data

/-! ## The agent's functions -/

/-- `_correct_spelling` applied with an explicit correction table. -/
def applyCorrections (prs : List (Str × Str)) (s : Str) : Str :=
  prs.foldl (fun acc p => pythonReplace p.1 p.2 acc) s

/-- `_correct_spelling`: sequentially replace each fixed misspelling with
its correction, in insertion order of the mapping. -/
def correct_spelling (s : Str) : Str := applyCorrections spelling_corrections s

/-- `_is_followup_request`: any follow-up keyword occurs in the lowered
question. -/
def is_followup_request (q : Str) : Bool :=
  followup_keywords.any (fun kw => containsSub (pyLower q) kw)

/-- `_is_casual_conversation`: at most five tokens, a greeting pattern
matches with word boundaries, and no data keyword occurs. -/
def is_casual_conversation (q : Str) : Bool :=
  let ql := pyStrip (pyLower q)
  if pyWordCount ql ≤ 5 then
    casual_patterns.any (fun p => wbSearch p ql) &&
      !(casual_data_keywords.any (fun kw => containsSub ql kw))
  else false

/-- `_needs_database_query`: with a prior query, reference words to the
previous results force a database turn; otherwise any broad data keyword
does. -/
def needs_database_query (s : AgentState) (q : Str) : Bool :=
  let ql := pyLower q
  if !(pyFalsy s.last_sql_query) && context_ref_words.any (fun w => containsSub ql w) then
    true
  else db_keywords.any (fun kw => containsSub ql kw)

/-- Python `l[-5:]`. -/
def lastFive (l : List MemTurn) : List MemTurn := l.drop (l.length - 5)

/-- The `is_edited_query` check of `_generate_intelligent_sql`: some user
turn among the last five memory entries equals the question after
`.lower().strip()` normalization. -/
def is_edited_query (s : AgentState) (q : Str) : Bool :=
  decide (0 < s.conversation_memory.length) &&
    (lastFive s.conversation_memory).any (fun m =>
      m.role == Role.user && pyStrip (pyLower m.content) == pyStrip (pyLower q))

/-- The simple-SQL template chain of `_generate_intelligent_sql`, in source
order; `none` means the chain falls through to the generative step (this
includes the deliberate fall-through for compound multi-property-type
requests). -/
def templateFor (q : Str) : Option Str :=
  let ql := pyLower q
  if containsSub ql "top".data && containsSub ql "performing".data then
    some (topPerformingSql (match firstNumber q with | some n => n | none => 5))
  else if containsSub ql "equity".data && containsSub ql "fund".data then
    some fundEquitySql
  else if containsSub ql "all properties".data || containsSub ql "show properties".data ||
      containsSub ql "show me all properties".data then
    some allPropertiesSql
  else if containsSub ql "cities".data || containsSub ql "what cities".data then
    some citiesSql
  else if containsSub ql "total debt".data || containsSub ql "outstanding debt".data then
    some totalDebtSql
  else if containsSub ql "multifamily".data then
    some multifamilySql
  else if containsSub ql "hospitality".data then
    some hospitalitySql
  else if containsSub ql "property types".data || containsSub ql "what property types".data then
    some propertyTypesSql
  else if (containsSub ql "noi".data || containsSub ql "net operating income".data) &&
      (containsSub ql "high".data || containsSub ql "top".data) then
    some highNoiSql
  else if containsSub ql "acquisition".data && containsSub ql "price".data then
    some acquisitionPriceSql
  else none

/-- `_generate_intelligent_sql` as the SQL Resolver: a repeat of a recent
user turn always delegates; otherwise the first matching template wins and
anything else delegates.  The delegated answer is the generative oracle's
(`none` models the caught client exception, which makes the method return
`None`). -/
def resolveSql (s : AgentState) (q : Str) (env : Env) : SqlRes :=
  if is_edited_query s q then SqlRes.delegated env.llmSql
  else
    match templateFor q with
    | some sql => SqlRes.template sql
    | none => SqlRes.delegated env.llmSql

/-- The text value `_generate_intelligent_sql` returns. -/
def sqlResText : SqlRes → Option Str
  | SqlRes.template sql => some sql
  | SqlRes.delegated ans => ans

/-- The guard `if not sql_query or "not possible" in sql_query.lower()` of
`_handle_database_query`. -/
def sqlUnusable : Option Str → Bool
  | none => true
  | some g => g.isEmpty || containsSub (pyLower g) "not possible".data

/-- `_clean_sql_query`: drop code fences, strip whitespace and quotes, keep
only the text before the first `;`, strip again. -/
def clean_sql_query (s : Str) : Str :=
  let s1 := pythonReplace "```sql".data [] s
  let s2 := pythonReplace "```".data [] s1
  let s3 := pyStrip s2
  let s4 := stripBy (fun c => c == Char.ofNat 34) s3
  let s5 := stripBy (fun c => c == Char.ofNat 39) s4
  let s6 := if containsSub s5 ";".data then s5.takeWhile (fun c => !(c == ';')) else s5
  pyStrip s6

/-- `_remove_query_limits`: delete every `TOP\s+\d+\s*` match
(case-insensitively) and strip the result. -/
def remove_query_limits (s : Str) : Str := pyStrip (reSubTopAux s.length s)

/-- `_generate_business_insights`: delegate narration to the generative
oracle; on exception fall back to a deterministic sentence with the row
count and column names. -/
def generate_business_insights (_q : Str) (df : Df) (env : Env) : Str :=
  if df.rows.isEmpty then noDataShortMsg
  else
    match env.llmInsights with
    | some s => pyStrip s
    | none =>
      "Query executed successfully and returned ".data ++ natStr df.rows.length ++
        " results with columns: ".data ++ List.intercalate ", ".data df.cols

/-- The assistant transcript entry appended by `_handle_database_query`
after a successful non-empty query. -/
def assistSummary (n : Nat) (q : Str) : Str :=
  "Query returned ".data ++ natStr n ++ " results from ".data ++ q

/-- The follow-up tip appended when results were limited by `TOP`. -/
def tipText (n : Nat) : Str :=
  "\n\n💡 **Tip**: This shows the first ".data ++ natStr n ++
    " results. Ask \x27show all results\x27 to see everything!".data

/-- Interpolation of an optional string into an f-string (`None` prints as
`None`). -/
def optText : Option Str → Str
  | some t => t
  | none => "None".data

/-- The insight text of `_handle_followup_request`. -/
def followupInsights (lastQuestion : Option Str) (n : Nat) : Str :=
  let base :=
    "Showing complete results for your previous question: \x27".data ++
      optText lastQuestion ++ "\x27. Found ".data ++ natStr n ++ " total rows.".data
  if 50 < n then
    base ++ "\n\n📊 **Large Dataset**: This query returned ".data ++ natStr n ++
      " rows. All data is included below.".data
  else base

/-- An error envelope `{"success": False, "error": msg}`. -/
def errorResp (msg : Str) : ChatResponse :=
  ⟨false, none, none, none, none, none, some msg, none⟩

/-- The local `expanded_query` of `_handle_followup_request`. -/
def followupExpanded (st : AgentState) : Str :=
  remove_query_limits (st.last_sql_query.getD [])

/-- `_handle_followup_request`.  The failure return on a null execution
result does not perform `db.close()`. -/
def handle_followup_request (st : AgentState) (q : Str) (env : Env) : TurnResult :=
  if pyFalsy st.last_sql_query then
    ⟨st, errorResp noPrevQueryMsg, [], none⟩
  else if env.connectOk then
    match env.execResult with
    | none =>
      ⟨st, errorResp expandedExecFailMsg,
        [DbCall.connect true, DbCall.execute (followupExpanded st) none], none⟩
    | some df =>
      ⟨⟨st.conversation_memory, some df, some (followupExpanded st), st.last_question⟩,
        ⟨true, some q, some (followupExpanded st), some df,
          some (followupInsights st.last_question df.rows.length),
          some df.rows.length, none, none⟩,
        [DbCall.connect true, DbCall.execute (followupExpanded st) (some df), DbCall.close],
        none⟩
  else ⟨st, errorResp dbConnFailMsg, [DbCall.connect false], none⟩

/-- `_handle_casual_conversation`. -/
def handle_casual_conversation (st : AgentState) (q : Str) : TurnResult :=
  match casual_responses.find? (fun kv => containsSub (pyStrip (pyLower q)) kv.1) with
  | some kv =>
    ⟨st, ⟨true, some q, some noQueryNeededMsg, some emptyDf, some kv.2, some 0, none,
       some "casual".data⟩, [], none⟩
  | none =>
    ⟨st, ⟨true, some q, some noQueryNeededMsg, some emptyDf, some defaultCasualMsg, some 0,
       none, some "casual".data⟩, [], none⟩

/-- The local `cleaned_query` of `_handle_database_query`. -/
def dbCleaned (st : AgentState) (q : Str) (env : Env) : Str :=
  clean_sql_query ((sqlResText (resolveSql st q env)).getD [])

/-- The insight text of a successful non-empty database turn: the business
insights plus, when the query was `TOP`-limited and returned at least ten
rows, the follow-up tip. -/
def dbInsights (q cleaned : Str) (df : Df) (env : Env) : Str :=
  if containsSub (pyUpper cleaned) "TOP ".data && 10 ≤ df.rows.length then
    generate_business_insights q df env ++ tipText df.rows.length
  else generate_business_insights q df env

/-- `_handle_database_query`.  The early returns on generation failure,
refusal text, execution failure and the empty result set do not perform
`db.close()`; only the success-with-rows path does.  The stored
`last_query_result` is `query_df.copy() if len(query_df) > 0 else
pd.DataFrame()`, written out per branch. -/
def handle_database_query (st : AgentState) (q : Str) (env : Env) : TurnResult :=
  if env.connectOk then
    if sqlUnusable (sqlResText (resolveSql st q env)) then
      ⟨st, errorResp sqlGenFailMsg, [DbCall.connect true], some (resolveSql st q env)⟩
    else
      match env.execResult with
      | none =>
        ⟨st, errorResp execFailMsg,
          [DbCall.connect true, DbCall.execute (dbCleaned st q env) none],
          some (resolveSql st q env)⟩
      | some df =>
        if df.rows.length = 0 then
          ⟨⟨st.conversation_memory, some emptyDf, some (dbCleaned st q env),
             st.last_question⟩,
            ⟨true, some q, some (dbCleaned st q env), some emptyDf, some noDataMsg, some 0,
              none, none⟩,
            [DbCall.connect true, DbCall.execute (dbCleaned st q env) (some df)],
            some (resolveSql st q env)⟩
        else
          ⟨⟨st.conversation_memory ++ [⟨Role.assistant, assistSummary df.rows.length q⟩],
             some df, some (dbCleaned st q env), st.last_question⟩,
            ⟨true, some q, some (dbCleaned st q env), some df,
              some (dbInsights q (dbCleaned st q env) df env), some df.rows.length,
              none, none⟩,
            [DbCall.connect true, DbCall.execute (dbCleaned st q env) (some df),
              DbCall.close],
            some (resolveSql st q env)⟩
  else ⟨st, errorResp dbConnFailMsg, [DbCall.connect false], none⟩

/-- `_handle_general_question`. -/
def handle_general_question (st : AgentState) (q : Str) (env : Env) : TurnResult :=
  match env.llmGeneral with
  | some s =>
    ⟨st, ⟨true, some q, some noQueryNeededMsg, some emptyDf, some (pyStrip s), some 0, none,
       some "general".data⟩, [], none⟩
  | none => ⟨st, errorResp genFailMsg, [], none⟩

/-- The preamble of `chat`: store the raw question in `last_question` and
append the spelling-corrected question to `conversation_memory` — this
happens before any dispatch. -/
def chatPre (s : AgentState) (q : Str) : AgentState :=
  ⟨s.conversation_memory ++ [⟨Role.user, correct_spelling q⟩],
   s.last_query_result, s.last_sql_query, some q⟩

/-- `chat`: one full turn of the Query Orchestrator.  All handlers receive
the corrected question and the post-preamble state. -/
def chat (s : AgentState) (q : Str) (env : Env) : TurnResult :=
  if is_followup_request (correct_spelling q) then
    handle_followup_request (chatPre s q) (correct_spelling q) env
  else if is_casual_conversation (correct_spelling q) then
    handle_casual_conversation (chatPre s q) (correct_spelling q)
  else if needs_database_query (chatPre s q) (correct_spelling q) then
    handle_database_query (chatPre s q) (correct_spelling q) env
  else handle_general_question (chatPre s q) (correct_spelling q) env

/-- The intent the dispatch of `chat` selects for a turn. -/
def dispatch (s : AgentState) (q : Str) : Intent :=
  if is_followup_request (correct_spelling q) then Intent.followUp
  else if is_casual_conversation (correct_spelling q) then Intent.casual
  else if needs_database_query (chatPre s q) (correct_spelling q) then Intent.dbQuery
  else Intent.general

/-- Did a turn's trace contain a successful `execute` call? -/
def execSuccess (calls : List DbCall) : Bool :=
  calls.any fun c =>
    match c with
    | DbCall.execute _ (some _) => true
    | _ => false

/-- Did a turn's trace contain any `execute` call at all? -/
def anyExec (calls : List DbCall) : Bool :=
  calls.any fun c =>
    match c with
    | DbCall.execute _ _ => true
    | _ => false

/-- Did a turn's trace contain a successful `connect`? -/
def anyConnectOk (calls : List DbCall) : Bool :=
  calls.any fun c =>
    match c with
    | DbCall.connect true => true
    | _ => false

/-- Did a turn's trace contain a `close`? -/
def anyClose (calls : List DbCall) : Bool :=
  calls.any fun c =>
    match c with
    | DbCall.close => true
    | _ => false

/-- One session step for a whole-session fold: thread the state and record
whether any turn so far executed a query successfully. -/
def sessionStep (acc : AgentState × Bool) (t : Str × Env) : AgentState × Bool :=
  let r := chat acc.1 t.1 t.2
  (r.state, acc.2 || execSuccess r.dbCalls)

/-- A whole session: fold `chat` over a list of (question, oracle) turns
starting from the initial state. -/
def runSession (ts : List (Str × Env)) : AgentState × Bool :=
  ts.foldl sessionStep (initialState, false)

/-! ## Concrete inputs used by counterexamples and witnesses -/

/-- Does a text contain none of the misspelling keys of the correction
table? -/
def noMisspellings (s : Str) : Bool := spelling_corrections.all (fun p => !containsSub s p.1)

/-- The spec's template-priority example question. -/
def qTopAssets : Str := "top 3 performing assets".data

def q1s : Str := "show me all properties".data

def q2s : Str := "show me all assets".data

/-- Oracle: connect ok, execution returns one row, generation and insights
answered. -/
def envOkRun : Env :=
  ⟨true, some ⟨["AssetName".data], [["A1".data]]⟩, some "SELECT A".data,
   some "ok".data, some "g".data⟩

/-- Oracle: connect ok, execution returns the failure sentinel. -/
def envExecFail : Env :=
  ⟨true, none, some "SELECT B".data, some "ok".data, some "g".data⟩

/-- Oracle: connect ok, execution returns a zero-row result set. -/
def envEmptyRun : Env :=
  ⟨true, some ⟨["AssetName".data], []⟩, some "SELECT A".data, some "ok".data, some "g".data⟩

/-- First turn of a two-turn session: a successful database query. -/
def turn1 : TurnResult := chat initialState q1s envOkRun

/-- Second turn: a database query whose execution fails. -/
def turn2 : TurnResult := chat turn1.state q2s envExecFail

/-- A memory holding one earlier user turn that equals (after
`.lower().strip()`) the question re-asked below. -/
def c2State : AgentState :=
  ⟨[⟨Role.user, "Top 5 performing assets ".data⟩], none, none, none⟩

/-! ## Helper lemmas -/

set_option maxRecDepth 100000

set_option maxHeartbeats 1000000

/-- A pattern with no occurrence in the text leaves `replace`
unchanged. -/
theorem noOcc_replaceAux (pat rep : Str) :
    ∀ (fuel : Nat) (s : Str), containsSub s pat = false →
      pythonReplaceAux fuel pat rep s = s := by
  intro fuel
  induction fuel with
  | zero => intro s _; rfl
  | succ n ih =>
    intro s h
    cases s with
    | nil => rfl
    | cons c t =>
      simp only [containsSub, Bool.or_eq_false_iff] at h
      unfold pythonReplaceAux
      rw [h.1]
      simp only [Bool.false_and, Bool.false_eq_true, if_false]
      exact congrArg (c :: ·) (ih t h.2)

theorem noOcc_replace (pat rep s : Str) (h : containsSub s pat = false) :
    pythonReplace pat rep s = s :=
  noOcc_replaceAux pat rep s.length s h

/-- A text containing none of the patterns of a correction table is a fixed
point of the whole correction pass. -/
theorem applyCorrections_noOcc :
    ∀ (prs : List (Str × Str)) (s : Str),
      prs.all (fun p => !containsSub s p.1) = true →
      applyCorrections prs s = s := by
  intro prs
  induction prs with
  | nil => intro s _; rfl
  | cons p rest ih =>
    intro s h
    simp only [List.all_cons, Bool.and_eq_true, Bool.not_eq_true'] at h
    unfold applyCorrections
    rw [List.foldl_cons]
    rw [noOcc_replace p.1 p.2 s h.1]
    exact ih s (by simpa [List.all_eq_true, Bool.not_eq_true'] using h.2)

/-- A text without a `TOP n` match is a fixed point of the regex
deletion. -/
theorem noTop_reSub : ∀ (fuel : Nat) (s : Str), hasTop s = false →
    reSubTopAux fuel s = s := by
  intro fuel
  induction fuel with
  | zero => intro s _; rfl
  | succ n ih =>
    intro s h
    cases s with
    | nil => rfl
    | cons c t =>
      simp only [hasTop, Bool.or_eq_false_iff] at h
      unfold reSubTopAux
      cases hm : matchTopLen (c :: t) with
      | some m => rw [hm] at h; simp at h
      | none =>
        exact congrArg (fun x => c :: x) (ih t h.2)

/-- The head of `dropWhile p` does not satisfy `p`. -/
theorem dropWhile_head_false (p : Char → Bool) (l : Str) (c : Char) (t : Str)
    (h : l.dropWhile p = c :: t) : p c = false := by
  have hh := List.head?_dropWhile_not p l
  rw [h] at hh
  simpa using hh

theorem stripEndBy_cons (p : Char → Bool) (c : Char) (t : Str) :
    stripEndBy p (c :: t) =
      if (stripEndBy p t).isEmpty && p c then [] else c :: stripEndBy p t := rfl

theorem stripEndBy_idem (p : Char → Bool) (l : Str) :
    stripEndBy p (stripEndBy p l) = stripEndBy p l := by
  induction l with
  | nil => rfl
  | cons c t ih =>
    rw [stripEndBy_cons]
    by_cases h : (stripEndBy p t).isEmpty && p c
    · rw [if_pos h]; rfl
    · rw [if_neg h, stripEndBy_cons, ih, if_neg h]

/-- Once the front is stripped, the end-strip creates no new strippable
front. -/
theorem dropWhile_stripEndBy_self (p : Char → Bool) (s : Str) :
    (stripEndBy p (s.dropWhile p)).dropWhile p = stripEndBy p (s.dropWhile p) := by
  cases ha : s.dropWhile p with
  | nil => rfl
  | cons c t =>
    have hc : p c = false := dropWhile_head_false p s c t ha
    rw [stripEndBy_cons]
    by_cases h : (stripEndBy p t).isEmpty && p c
    · rw [if_pos h]; rfl
    · rw [if_neg h]
      exact List.dropWhile_cons_of_neg (by simp [hc])

theorem stripBy_idem (p : Char → Bool) (s : Str) :
    stripBy p (stripBy p s) = stripBy p s := by
  unfold stripBy
  rw [dropWhile_stripEndBy_self, stripEndBy_idem]

/-- Python `str.strip()` is idempotent. -/
theorem pyStrip_idem (s : Str) : pyStrip (pyStrip s) = pyStrip s :=
  stripBy_idem isPyWs s

/-- Every turn either leaves `last_sql_query` unchanged (and no execute
call succeeded) or sets it (and a successful execute call happened). -/
theorem chat_lsq_cases (s : AgentState) (q : Str) (env : Env) :
    ((chat s q env).state.last_sql_query = s.last_sql_query ∧
      execSuccess (chat s q env).dbCalls = false) ∨
    ((chat s q env).state.last_sql_query.isSome = true ∧
      execSuccess (chat s q env).dbCalls = true) := by
  unfold chat handle_followup_request handle_casual_conversation
    handle_database_query handle_general_question
  repeat' split
  all_goals first
    | exact Or.inl ⟨rfl, rfl⟩
    | exact Or.inr ⟨rfl, rfl⟩

theorem dispatch_db_inv (s : AgentState) (q : Str) (h : dispatch s q = Intent.dbQuery) :
    is_followup_request (correct_spelling q) = false ∧
    is_casual_conversation (correct_spelling q) = false ∧
    needs_database_query (chatPre s q) (correct_spelling q) = true := by
  unfold dispatch at h
  split_ifs at h with h1 h2 h3
  · exact ⟨by simpa using h1, by simpa using h2, h3⟩

theorem dispatch_casual_inv (s : AgentState) (q : Str) (h : dispatch s q = Intent.casual) :
    is_followup_request (correct_spelling q) = false ∧
    is_casual_conversation (correct_spelling q) = true := by
  unfold dispatch at h
  split_ifs at h with h1 h2
  · exact ⟨by simpa using h1, h2⟩

theorem dispatch_general_inv (s : AgentState) (q : Str) (h : dispatch s q = Intent.general) :
    is_followup_request (correct_spelling q) = false ∧
    is_casual_conversation (correct_spelling q) = false ∧
    needs_database_query (chatPre s q) (correct_spelling q) = false := by
  unfold dispatch at h
  split_ifs at h with h1 h2 h3
  · exact ⟨by simpa using h1, by simpa using h2, by simpa using h3⟩

/-- Session-fold invariant: `last_sql_query` is set exactly when some turn
executed a query successfully. -/
theorem sessionInv_aux : ∀ (ts : List (Str × Env)) (acc : AgentState × Bool),
    acc.1.last_sql_query.isSome = acc.2 →
    (ts.foldl sessionStep acc).1.last_sql_query.isSome = (ts.foldl sessionStep acc).2 := by
  intro ts
  induction ts with
  | nil => intro acc h; exact h
  | cons t ts ih =>
    intro acc h
    rw [List.foldl_cons]
    apply ih
    unfold sessionStep
    rcases chat_lsq_cases acc.1 t.1 t.2 with ⟨h1, h2⟩ | ⟨h1, h2⟩
    · simp [h1, h2, h]
    · simp [h1, h2]

/-! ## Claims -/

/-- Claim C1 (code bug): for the fresh question "top 3 performing assets",
the top-performing template would match with limit 3, yet the resolver
produces a delegation to the generative capability instead — `chat` appends
the current question to `conversation_memory` before the resolver's
repeat-of-recent-turn check scans the last five entries, so every question
matches itself and the template chain is bypassed. -/
theorem C1_fresh_question_delegates :
    (chat initialState qTopAssets envExecFail).resolution
        = some (SqlRes.delegated (some "SELECT B".data)) ∧
    templateFor (correct_spelling qTopAssets) = some (topPerformingSql 3) ∧
    dispatch initialState qTopAssets = Intent.dbQuery := by
  refine ⟨by decide, by decide, by decide⟩

/-- Claim C2 (confirmed): whenever the normalized question equals some user
turn among the last five conversation-memory entries, the SQL Resolver
skips template matching and delegates to the generative capability,
whatever the template library would have said. -/
theorem C2_repeat_delegates (st : AgentState) (q : Str) (env : Env)
    (h : (lastFive st.conversation_memory).any (fun m =>
        m.role == Role.user && pyStrip (pyLower m.content) == pyStrip (pyLower q)) = true) :
    resolveSql st q env = SqlRes.delegated env.llmSql := by
  have hlen : 0 < st.conversation_memory.length := by
    rcases List.any_eq_true.mp h with ⟨m, hm, -⟩
    unfold lastFive at hm
    have : m ∈ st.conversation_memory := List.mem_of_mem_drop hm
    exact List.length_pos.mpr (List.ne_nil_of_mem this)
  have hed : is_edited_query st q = true := by
    unfold is_edited_query
    simp [hlen, h]
  unfold resolveSql
  rw [hed]
  simp

/-- Claim C2 witness: re-asking "top 5 performing assets" (stored earlier
with different case and trailing whitespace) delegates although the
top-performing template matches this question. -/
theorem C2_repeat_delegates_witness :
    resolveSql c2State "top 5 performing assets".data envExecFail
        = SqlRes.delegated (some "SELECT B".data) ∧
    (templateFor "top 5 performing assets".data).isSome = true :=
  ⟨C2_repeat_delegates c2State ("top 5 performing assets".data) envExecFail (by decide),
   by decide⟩

/-- Claim C3 counterexample: the Spelling Normalizer is not idempotent —
the correction of "revenu" is "revenue", which itself contains the
misspelling key "revenu", so a second pass yields "revenuee". -/
theorem C3_counterexample :
    correct_spelling (correct_spelling "revenu".data) ≠ correct_spelling "revenu".data := by
  decide

/-- Claim C3 (amended): the Spelling Normalizer is idempotent on every
input whose normalized form contains none of the misspelling keys (a second
pass then changes nothing). -/
theorem C3_idem_when_no_misspelling (t : Str)
    (h : noMisspellings (correct_spelling t) = true) :
    correct_spelling (correct_spelling t) = correct_spelling t := by
  unfold noMisspellings at h
  exact applyCorrections_noOcc spelling_corrections (correct_spelling t) h

/-- Claim C3 witness: "please lst the propertys" normalizes to a clean text
and a second normalization pass is the identity on it. -/
theorem C3_idem_witness :
    noMisspellings (correct_spelling "please lst the propertys".data) = true ∧
    correct_spelling (correct_spelling "please lst the propertys".data)
      = correct_spelling "please lst the propertys".data :=
  ⟨by decide, C3_idem_when_no_misspelling ("please lst the propertys".data) (by decide)⟩

/-- Claim C4 counterexample: the Query Limit Editor is not the identity on
TOP-free inputs (it strips surrounding whitespace: " SELECT 1" becomes
"SELECT 1"), and it is not idempotent on all inputs (deleting the inner
"TOP 3 " of "TOP TOP 3 3" creates the new limit clause "TOP 3", which a
second application deletes). -/
theorem C4_counterexample :
    remove_query_limits " SELECT 1".data ≠ " SELECT 1".data ∧
    hasTop " SELECT 1".data = false ∧
    remove_query_limits (remove_query_limits "TOP TOP 3 3".data)
      ≠ remove_query_limits "TOP TOP 3 3".data := by
  refine ⟨by decide, by decide, by decide⟩

/-- Claim C4 (amended): on a text without a TOP-with-number token the
editor only strips surrounding whitespace (so it is the identity on such
texts with no leading/trailing whitespace), and it is idempotent on every
input whose once-edited output contains no TOP-with-number token. -/
theorem C4_noTop_strip_and_idem (s : Str) :
    (hasTop s = false → remove_query_limits s = pyStrip s) ∧
    (hasTop (remove_query_limits s) = false →
      remove_query_limits (remove_query_limits s) = remove_query_limits s) := by
  constructor
  · intro h
    unfold remove_query_limits
    rw [noTop_reSub s.length s h]
  · intro h
    conv_lhs => rw [remove_query_limits]
    rw [noTop_reSub (remove_query_limits s).length (remove_query_limits s) h]
    unfold remove_query_limits
    exact pyStrip_idem (reSubTopAux s.length s)

/-- Claim C4 witness: "SELECT * FROM DimAsset" has no TOP token; the editor
returns its strip and is idempotent on it. -/
theorem C4_noTop_witness :
    remove_query_limits "SELECT * FROM DimAsset".data
        = pyStrip "SELECT * FROM DimAsset".data ∧
    remove_query_limits (remove_query_limits "SELECT * FROM DimAsset".data)
      = remove_query_limits "SELECT * FROM DimAsset".data :=
  ⟨(C4_noTop_strip_and_idem ("SELECT * FROM DimAsset".data)).1 (by decide),
   (C4_noTop_strip_and_idem ("SELECT * FROM DimAsset".data)).2 (by decide)⟩

/-- Claim C5 counterexample: after a successful database turn followed by a
database turn whose execution returns the failure sentinel, the most recent
database-query turn did not execute successfully, yet `last_sql_query` is
still non-null — the claimed "iff the most recent database-query turn
executed successfully" fails. -/
theorem C5_counterexample :
    turn2.state.last_sql_query ≠ none ∧
    anyExec turn2.dbCalls = true ∧
    execSuccess turn2.dbCalls = false := by
  refine ⟨by decide, by decide, by decide⟩

/-- Claim C5 (amended): over every session starting from the initial state,
`last_sql_query` is non-null exactly when at least one turn so far executed
its query successfully (not necessarily the most recent one); and whenever
the session state has `last_sql_query` null, a follow-up/expansion turn is
invalid — it fails with `success=false` and the explicit no-previous-query
error. -/
theorem C5_lastSql_iff_someSuccess (ts : List (Str × Env)) :
    (((runSession ts).1.last_sql_query ≠ none) ↔ (runSession ts).2 = true) ∧
    (∀ (q : Str) (env : Env), is_followup_request (correct_spelling q) = true →
      (runSession ts).1.last_sql_query = none →
      (chat (runSession ts).1 q env).resp.success = false ∧
      (chat (runSession ts).1 q env).resp.error = some noPrevQueryMsg) := by
  constructor
  · have h := sessionInv_aux ts (initialState, false) rfl
    rw [Option.ne_none_iff_isSome]
    unfold runSession
    rw [h]
  · intro q env hf hlq
    unfold chat handle_followup_request
    simp [hf, chatPre, hlq, pyFalsy, errorResp]

/-- Claim C5 witness: after a one-turn session consisting of the casual
greeting "hello", `last_sql_query` is still null and no turn succeeded, the
invariant instance holds, and the follow-up request "expand" fails with the
explicit no-previous-query error. -/
theorem C5_lastSql_iff_someSuccess_witness :
    (((runSession [("hello".data, envExecFail)]).1.last_sql_query ≠ none) ↔
        (runSession [("hello".data, envExecFail)]).2 = true) ∧
    (chat (runSession [("hello".data, envExecFail)]).1 "expand".data envExecFail).resp.success
        = false ∧
    (chat (runSession [("hello".data, envExecFail)]).1 "expand".data envExecFail).resp.error
      = some noPrevQueryMsg :=
  ⟨(C5_lastSql_iff_someSuccess [("hello".data, envExecFail)]).1,
   ((C5_lastSql_iff_someSuccess [("hello".data, envExecFail)]).2 ("expand".data) envExecFail
      (by decide) (by decide)).1,
   ((C5_lastSql_iff_someSuccess [("hello".data, envExecFail)]).2 ("expand".data) envExecFail
      (by decide) (by decide)).2⟩

/-- Claim C6 counterexample: on an execution-failure turn the
ConversationState is not left entirely unmodified — the `chat` preamble has
already overwritten `last_question` and appended the user turn to the
transcript before the failure is detected. -/
theorem C6_counterexample :
    anyExec turn2.dbCalls = true ∧
    execSuccess turn2.dbCalls = false ∧
    turn2.resp.success = false ∧
    turn2.state.last_question ≠ turn1.state.last_question ∧
    turn2.state.conversation_memory ≠ turn1.state.conversation_memory := by
  refine ⟨by decide, by decide, by decide, by decide, by decide⟩

/-- Claim C6 (amended): when the executor returns the failure sentinel on a
database-query turn, the turn reports a user-facing error and leaves
`last_sql_query` and `last_query_result` unmodified (so a follow-up still
sees the last successful query); however `last_question` is overwritten
with the incoming question and the user turn is appended to the transcript
by the `chat` preamble (and no assistant entry is added). -/
theorem C6_execfail_frame (s : AgentState) (q : Str) (env : Env)
    (hd : dispatch s q = Intent.dbQuery)
    (hc : env.connectOk = true)
    (hg : sqlUnusable (sqlResText (resolveSql (chatPre s q) (correct_spelling q) env)) = false)
    (he : env.execResult = none) :
    (chat s q env).resp.success = false ∧
    (chat s q env).resp.error = some execFailMsg ∧
    (chat s q env).state.last_sql_query = s.last_sql_query ∧
    (chat s q env).state.last_query_result = s.last_query_result ∧
    (chat s q env).state.last_question = some q ∧
    (chat s q env).state.conversation_memory
      = s.conversation_memory ++ [⟨Role.user, correct_spelling q⟩] := by
  obtain ⟨h1, h2, h3⟩ := dispatch_db_inv s q hd
  unfold chat handle_database_query
  simp only [h1, h2, h3, hc, hg, he]
  simp [chatPre, errorResp]

/-- Claim C6 witness: a failing first database turn reports an error and
leaves `last_sql_query` at its initial value. -/
theorem C6_execfail_frame_witness :
    (chat initialState q1s envExecFail).resp.success = false ∧
    (chat initialState q1s envExecFail).state.last_sql_query
      = initialState.last_sql_query :=
  ⟨(C6_execfail_frame initialState q1s envExecFail (by decide) (by decide) (by decide)
      (by decide)).1,
   (C6_execfail_frame initialState q1s envExecFail (by decide) (by decide) (by decide)
      (by decide)).2.2.1⟩

/-- Claim C7 (code bug): a database-query turn that opens the connection
and whose execution returns the failure sentinel returns its envelope with
no `close` call in the trace — `db.close()` is only reached on the
success-with-rows path (or in the exception handler), so the connection is
left open on the generation-failure, refusal, execution-failure and
empty-result paths. -/
theorem C7_connection_left_open :
    anyConnectOk (chat initialState q1s envExecFail).dbCalls = true ∧
    anyClose (chat initialState q1s envExecFail).dbCalls = false ∧
    (chat initialState q1s envExecFail).resp.error = some execFailMsg := by
  refine ⟨by decide, by decide, by decide⟩

/-- Claim C8 (confirmed): a follow-up turn with no prior query fails with
`success=false`, the explicit no-previous-query message, and performs no
database call at all. -/
theorem C8_followup_no_prior (s : AgentState) (q : Str) (env : Env)
    (hf : is_followup_request (correct_spelling q) = true)
    (hlq : s.last_sql_query = none) :
    (chat s q env).resp.success = false ∧
    (chat s q env).resp.error = some noPrevQueryMsg ∧
    (chat s q env).dbCalls = [] := by
  unfold chat handle_followup_request
  simp [hf, chatPre, hlq, pyFalsy, errorResp]

/-- Claim C8 witness: "show all" on a fresh session. -/
theorem C8_followup_no_prior_witness :
    (chat initialState "show all".data envExecFail).resp.success = false ∧
    (chat initialState "show all".data envExecFail).resp.error = some noPrevQueryMsg ∧
    (chat initialState "show all".data envExecFail).dbCalls = [] :=
  C8_followup_no_prior initialState ("show all".data) envExecFail (by decide) (by decide)

/-- Claim C9 (confirmed): a database-query turn whose execution returns a
zero-row result set yields `success=true`, `row_count=0` and the non-empty
advisory insight text, with no error. -/
theorem C9_empty_result_success (s : AgentState) (q : Str) (env : Env) (df : Df)
    (hd : dispatch s q = Intent.dbQuery)
    (hc : env.connectOk = true)
    (hg : sqlUnusable (sqlResText (resolveSql (chatPre s q) (correct_spelling q) env)) = false)
    (he : env.execResult = some df)
    (hrows : df.rows = []) :
    (chat s q env).resp.success = true ∧
    (chat s q env).resp.row_count = some 0 ∧
    (chat s q env).resp.insights = some noDataMsg ∧
    noDataMsg ≠ [] ∧
    (chat s q env).resp.error = none := by
  obtain ⟨h1, h2, h3⟩ := dispatch_db_inv s q hd
  unfold chat handle_database_query
  simp only [h1, h2, h3, hc, hg, he, hrows]
  simp [chatPre, noDataMsg]

/-- Claim C9 witness: a zero-row execution of a database question. -/
theorem C9_empty_result_success_witness :
    (chat initialState q1s envEmptyRun).resp.success = true ∧
    (chat initialState q1s envEmptyRun).resp.row_count = some 0 ∧
    (chat initialState q1s envEmptyRun).resp.insights = some noDataMsg ∧
    noDataMsg ≠ [] ∧
    (chat initialState q1s envEmptyRun).resp.error = none :=
  C9_empty_result_success initialState q1s envEmptyRun ⟨["AssetName".data], []⟩
    (by decide) (by decide) (by decide) (by decide) (by decide)

/-- Claim C10 (confirmed): casual and general turns leave `last_sql_query`
and `last_query_result` unchanged and perform no database call
whatsoever. -/
theorem C10_casual_general_frame (s : AgentState) (q : Str) (env : Env)
    (hd : dispatch s q = Intent.casual ∨ dispatch s q = Intent.general) :
    (chat s q env).state.last_sql_query = s.last_sql_query ∧
    (chat s q env).state.last_query_result = s.last_query_result ∧
    (chat s q env).dbCalls = [] := by
  rcases hd with hd | hd
  · obtain ⟨h1, h2⟩ := dispatch_casual_inv s q hd
    unfold chat handle_casual_conversation
    simp only [h1, h2]
    simp [chatPre, casual_responses]
  · obtain ⟨h1, h2, h3⟩ := dispatch_general_inv s q hd
    unfold chat handle_general_question
    cases hgen : env.llmGeneral <;>
      simp only [h1, h2, h3, hgen] <;>
      simp [chatPre, errorResp]

/-- Claim C10 witness: the casual turn "hello". -/
theorem C10_casual_general_frame_witness :
    (chat initialState "hello".data envExecFail).state.last_sql_query
        = initialState.last_sql_query ∧
    (chat initialState "hello".data envExecFail).state.last_query_result
      = initialState.last_query_result ∧
    (chat initialState "hello".data envExecFail).dbCalls = [] :=
  C10_casual_general_frame initialState ("hello".data) envExecFail (Or.inl (by decide))
